import Mathlib

set_option autoImplicit false
set_option linter.unusedVariables false

namespace AppUserManager

/-!
Shallow embedding of the core of the `app-user-manager` repository:
`src/auth.py` (AuthService), `src/group_manager.py` (GroupManager) and
`src/databricks_service.py` (DatabricksGroupService).

The external workspace-identity provider is out of scope of the repository
(spec section 1); it is represented as a state-transforming oracle `World`:
every remote call either returns a value (Python: normal return, here
`Except.ok`) or raises (here `Except.error` carrying the message) and may
advance an abstract remote state.  The operations additionally produce a
trace of `Event`s recording the provider calls that were actually issued and
the log lines emitted inside the per-group loop, so that claims about calls
that must not happen and about audit emission can be stated.
-/

/-- SCIM complex value with a string payload, used for user email entries. -/
structure ComplexValue where
  value : String
  deriving DecidableEq, Repr

/-- Workspace user identity: opaque id plus the list of email entries. -/
structure DBUser where
  id : String
  emails : List ComplexValue
  deriving DecidableEq, Repr

/-- Workspace group: opaque id and externally chosen display name. -/
structure DBGroup where
  id : String
  display_name : String
  deriving DecidableEq, Repr

/-- One entry of a group's access-control list, as returned by
permissions.get in `auth.py`. -/
structure AclEntry where
  permission_level : String
  deriving DecidableEq, Repr

/-- Response of the permissions.get call: the access-control list. -/
structure PermissionsResp where
  access_control_list : List AclEntry
  deriving DecidableEq, Repr

/-- Trace events: service-principal provider calls issued by the membership
operations, and the logger calls emitted inside the per-group loop of
`group_manager.py` (these log lines are the audit entries of the spec).
The read-only calls made with the caller-scoped client inside the
permission check are not traced; no claim mentions them. -/
inductive Event where
  | spUsersList
  | spGroupsList
  | listMembers (group_id : String)
  | addMember (group_id user_name : String)
  | removeMember (group_id user_id : String)
  | auditInfo (group_name : String)
  | auditError (group_name : String)
  deriving DecidableEq, Repr

/-- True exactly for the membership-mutating provider calls. -/
def Event.isMutation : Event → Bool
  | .addMember _ _ => true
  | .removeMember _ _ => true
  | _ => false

/-- True exactly for the per-group log emissions (the audit entries). -/
def Event.isAudit : Event → Bool
  | .auditInfo _ => true
  | .auditError _ => true
  | _ => false

/-- The audit entries contained in a trace. -/
def auditEvents (l : List Event) : List Event := l.filter Event.isAudit

/-- The external provider as a state-transforming oracle.  Fields prefixed
`sp` are calls made with the service-principal (privileged) client; the
first three are made with the caller-scoped user client. -/
structure World (σ : Type) where
  currentUserMe : σ → Except String DBUser × σ
  userGroupsList : σ → Except String (List DBGroup) × σ
  permissionsGet : String → σ → Except String PermissionsResp × σ
  spUsersList : σ → Except String (List DBUser) × σ
  spGroupsList : σ → Except String (List DBGroup) × σ
  spListMembers : String → σ → Except String (List DBUser) × σ
  spAddMember : String → String → σ → Except String Unit × σ
  spRemoveMember : String → String → σ → Except String Unit × σ

/-- Loop of AuthService.can_manage_group (`auth.py` lines 69-78): the first
group whose display name matches decides; its access-control list is then
fetched (which may raise) and the answer is whether some entry carries the
ADMIN or MANAGE level.  No match means false. -/
def checkGroups {σ : Type} (w : World σ) (group_name : String) :
    List DBGroup → σ → Except String Bool × σ
  | [], s => (.ok false, s)
  | g :: rest, s =>
    if g.display_name == group_name then
      match w.permissionsGet g.id s with
      | (.error e, s1) => (.error e, s1)
      | (.ok perms, s1) =>
        (.ok (perms.access_control_list.any fun p =>
          p.permission_level == "ADMIN" || p.permission_level == "MANAGE"), s1)
    else checkGroups w group_name rest s

/-- AuthService.can_manage_group (`auth.py` lines 61-82): fetch the current
user, list the caller-visible groups, scan for the named group and check its
access-control list; any exception in any step is caught and the function
returns false. -/
def can_manage_group {σ : Type} (w : World σ) (group_name : String) (s : σ) :
    Bool × σ :=
  match w.currentUserMe s with
  | (.error _, s1) => (false, s1)
  | (.ok _, s1) =>
    match w.userGroupsList s1 with
    | (.error _, s2) => (false, s2)
    | (.ok ugs, s2) =>
      match checkGroups w group_name ugs s2 with
      | (.error _, s3) => (false, s3)
      | (.ok b, s3) => (b, s3)

/-- Outcome of processing one group inside the batch loop. -/
inductive Outcome where
  | success (status : String)
  | failed (reason : String)
  | unauthorized
  deriving DecidableEq, Repr

/-- Entry of the success list: group name and status string. -/
structure SuccessEntry where
  group : String
  status : String
  deriving DecidableEq, Repr

/-- Entry of the failed list: group name and reason string. -/
structure FailedEntry where
  group : String
  reason : String
  deriving DecidableEq, Repr

/-- The results dictionary built by add_user_to_groups and
remove_user_from_groups. -/
structure OperationResult where
  success : List SuccessEntry
  failed : List FailedEntry
  unauthorized : List String
  deriving DecidableEq, Repr

/-- The initial results dictionary with all three lists empty. -/
def emptyResult : OperationResult := ⟨[], [], []⟩

/-- Record one group's outcome.  The Python loop appends in iteration order;
the recursion below rebuilds the lists by prepending the head group's
outcome to the results of the tail, which yields the same order. -/
def recordOutcome (g : String) (o : Outcome) (r : OperationResult) :
    OperationResult :=
  match o with
  | .success st => ⟨⟨g, st⟩ :: r.success, r.failed, r.unauthorized⟩
  | .failed reason => ⟨r.success, ⟨g, reason⟩ :: r.failed, r.unauthorized⟩
  | .unauthorized => ⟨r.success, r.failed, g :: r.unauthorized⟩

/-- User lookup of `group_manager.py` lines 105-106: first user whose email
list is nonempty (Python truthiness of u.emails) and contains the email. -/
def findUserByEmail (email : String) (users : List DBUser) : Option DBUser :=
  users.find? fun u => !u.emails.isEmpty && u.emails.any fun e => e.value == email

/-- Body of the per-group loop of add_user_to_groups (`group_manager.py`
lines 112-163).  The surrounding try/except maps any raising provider call
to a failed entry carrying the message; the info log after a successful
mutation is the audit entry; note that the group-not-found branch and the
already-member branch emit no log line. -/
def processAddGroup {σ : Type} (w : World σ) (user_email : String)
    (user : DBUser) (group_name : String) (s : σ) : Outcome × σ × List Event :=
  match can_manage_group w group_name s with
  | (false, s1) => (.unauthorized, s1, [])
  | (true, s1) =>
    match w.spGroupsList s1 with
    | (.error e, s2) => (.failed e, s2, [.spGroupsList, .auditError group_name])
    | (.ok gl, s2) =>
      match gl.find? (fun g => g.display_name == group_name) with
      | none => (.failed "Group not found", s2, [.spGroupsList])
      | some group =>
        match w.spListMembers group.id s2 with
        | (.error e, s3) =>
          (.failed e, s3,
            [.spGroupsList, .listMembers group.id, .auditError group_name])
        | (.ok members, s3) =>
          if members.any fun m => m.id == user.id then
            (.success "already_member", s3,
              [.spGroupsList, .listMembers group.id])
          else
            match w.spAddMember group.id user_email s3 with
            | (.error e, s4) =>
              (.failed e, s4,
                [.spGroupsList, .listMembers group.id,
                 .addMember group.id user_email, .auditError group_name])
            | (.ok _, s4) =>
              (.success "added", s4,
                [.spGroupsList, .listMembers group.id,
                 .addMember group.id user_email, .auditInfo group_name])

/-- Body of the per-group loop of remove_user_from_groups
(`group_manager.py` lines 197-250); the membership probe uses find? as the
Python code does and the removal passes the resolved user's id. -/
def processRemoveGroup {σ : Type} (w : World σ) (user_email : String)
    (user : DBUser) (group_name : String) (s : σ) : Outcome × σ × List Event :=
  match can_manage_group w group_name s with
  | (false, s1) => (.unauthorized, s1, [])
  | (true, s1) =>
    match w.spGroupsList s1 with
    | (.error e, s2) => (.failed e, s2, [.spGroupsList, .auditError group_name])
    | (.ok gl, s2) =>
      match gl.find? (fun g => g.display_name == group_name) with
      | none => (.failed "Group not found", s2, [.spGroupsList])
      | some group =>
        match w.spListMembers group.id s2 with
        | (.error e, s3) =>
          (.failed e, s3,
            [.spGroupsList, .listMembers group.id, .auditError group_name])
        | (.ok members, s3) =>
          match members.find? (fun m => m.id == user.id) with
          | none =>
            (.success "not_in_group", s3,
              [.spGroupsList, .listMembers group.id])
          | some _ =>
            match w.spRemoveMember group.id user.id s3 with
            | (.error e, s4) =>
              (.failed e, s4,
                [.spGroupsList, .listMembers group.id,
                 .removeMember group.id user.id, .auditError group_name])
            | (.ok _, s4) =>
              (.success "removed", s4,
                [.spGroupsList, .listMembers group.id,
                 .removeMember group.id user.id, .auditInfo group_name])

/-- The per-group loop of add_user_to_groups, one group at a time in
caller-supplied order. -/
def addLoop {σ : Type} (w : World σ) (user_email : String) (user : DBUser) :
    List String → σ → OperationResult × σ × List Event
  | [], s => (emptyResult, s, [])
  | g :: rest, s =>
    match processAddGroup w user_email user g s with
    | (o, s1, ev1) =>
      match addLoop w user_email user rest s1 with
      | (r, s2, ev2) => (recordOutcome g o r, s2, ev1 ++ ev2)

/-- The per-group loop of remove_user_from_groups. -/
def removeLoop {σ : Type} (w : World σ) (user_email : String) (user : DBUser) :
    List String → σ → OperationResult × σ × List Event
  | [], s => (emptyResult, s, [])
  | g :: rest, s =>
    match processRemoveGroup w user_email user g s with
    | (o, s1, ev1) =>
      match removeLoop w user_email user rest s1 with
      | (r, s2, ev2) => (recordOutcome g o r, s2, ev1 ++ ev2)

/-- GroupManager.add_user_to_groups (`group_manager.py` lines 86-169): list
the provider's users with the privileged client, resolve the target by
email, raise a user-not-found ValueError when absent (the outer handler
logs and re-raises, so a listing failure or missing user propagates as
`Except.error`), then process each group. -/
def add_user_to_groups {σ : Type} (w : World σ) (user_email : String)
    (group_names : List String) (s : σ) :
    Except String OperationResult × σ × List Event :=
  match w.spUsersList s with
  | (.error e, s1) => (.error e, s1, [.spUsersList])
  | (.ok users, s1) =>
    match findUserByEmail user_email users with
    | none =>
      (.error ("User with email " ++ user_email ++ " not found"), s1,
        [.spUsersList])
    | some user =>
      match addLoop w user_email user group_names s1 with
      | (r, s2, ev) => (.ok r, s2, .spUsersList :: ev)

/-- GroupManager.remove_user_from_groups (`group_manager.py` lines
171-256), with the same shape as the add operation. -/
def remove_user_from_groups {σ : Type} (w : World σ) (user_email : String)
    (group_names : List String) (s : σ) :
    Except String OperationResult × σ × List Event :=
  match w.spUsersList s with
  | (.error e, s1) => (.error e, s1, [.spUsersList])
  | (.ok users, s1) =>
    match findUserByEmail user_email users with
    | none =>
      (.error ("User with email " ++ user_email ++ " not found"), s1,
        [.spUsersList])
    | some user =>
      match removeLoop w user_email user group_names s1 with
      | (r, s2, ev) => (.ok r, s2, .spUsersList :: ev)

/-- The group names collected over the three result lists, success first,
then failed, then unauthorized. -/
def resultNames (r : OperationResult) : List String :=
  r.success.map SuccessEntry.group ++ r.failed.map FailedEntry.group ++
    r.unauthorized

/-!
Credential broker: `auth.py` AuthService and the client construction of
`databricks_service.py`.  The memoized attributes become explicit state;
the externally visible steps of credential acquisition become `AuthEvent`s.
The `getSecret` constructor stands for a SecretClient.get_secret call
against the vault: it is part of the observable vocabulary precisely so
that its absence from every trace the code can produce is expressible.
-/

/-- Authentication material a workspace client is constructed with: either
an oauth client-id/client-secret pair or a bearer token. -/
inductive WAuth where
  | oauth (client_id client_secret : String)
  | bearer (token : String)
  deriving DecidableEq, Repr

/-- Externally visible steps of credential acquisition. -/
inductive AuthEvent where
  | clientSecretCredential (tenant_id client_id client_secret : String)
  | secretClientCtor (vault_url : String)
  | getSecret (secret_name : String)
  | getAadToken (scope : String)
  | workspaceClientCtor (host : String) (auth : WAuth)
  deriving DecidableEq, Repr

/-- The configuration values read from `config.py` settings. -/
structure Settings where
  TENANT_ID : String
  SERVICE_PRINCIPAL_CLIENT_ID : String
  SERVICE_PRINCIPAL_SECRET : String
  KEY_VAULT_NAME : String
  DATABRICKS_WORKSPACE_URL : String
  deriving DecidableEq, Repr

/-- A constructed workspace client handle: endpoint and authentication. -/
structure WClient where
  host : String
  auth : WAuth
  deriving DecidableEq, Repr

/-- The credentials dictionary built by AuthService. -/
structure Creds where
  client_id : String
  client_secret : String
  tenant_id : String
  deriving DecidableEq, Repr

/-- AuthService._get_service_principal_credentials (`auth.py` lines 22-45):
when the memo is empty, build a ClientSecretCredential from the bootstrap
identity and a SecretClient against the vault url, then store the bootstrap
identity itself as the credentials.  No get_secret call is ever issued and
nothing returned by the vault enters the stored credentials. -/
def _get_service_principal_credentials (st : Settings) (memo : Option Creds) :
    Creds × Option Creds × List AuthEvent :=
  match memo with
  | some c => (c, some c, [])
  | none =>
    (⟨st.SERVICE_PRINCIPAL_CLIENT_ID, st.SERVICE_PRINCIPAL_SECRET,
       st.TENANT_ID⟩,
     some ⟨st.SERVICE_PRINCIPAL_CLIENT_ID, st.SERVICE_PRINCIPAL_SECRET,
       st.TENANT_ID⟩,
     [.clientSecretCredential st.TENANT_ID st.SERVICE_PRINCIPAL_CLIENT_ID
        st.SERVICE_PRINCIPAL_SECRET,
      .secretClientCtor
        ("https://" ++ st.KEY_VAULT_NAME ++ ".vault.azure.net")])

/-- AuthService.get_service_principal_client (`auth.py` lines 47-59): build
a workspace client from the stored credentials, authenticating with the
client-id/client-secret pair against the configured workspace url. -/
def get_service_principal_client (st : Settings) (memo : Option Creds) :
    WClient × Option Creds × List AuthEvent :=
  match _get_service_principal_credentials st memo with
  | (creds, memo1, ev) =>
    (⟨st.DATABRICKS_WORKSPACE_URL,
       .oauth creds.client_id creds.client_secret⟩, memo1,
     ev ++ [.workspaceClientCtor st.DATABRICKS_WORKSPACE_URL
        (.oauth creds.client_id creds.client_secret)])

/-- Memoized attributes of a GroupManager instance that matter to client
acquisition: its own client memo and its AuthService credentials memo. -/
structure GMState where
  sp_client_memo : Option WClient
  creds_memo : Option Creds
  deriving DecidableEq, Repr

/-- GroupManager.service_principal_client (`group_manager.py` lines 23-28):
lazily fetch the privileged client from AuthService on first access and
memoize it on the instance. -/
def service_principal_client (st : Settings) (s : GMState) :
    WClient × GMState × List AuthEvent :=
  match s.sp_client_memo with
  | some c => (c, s, [])
  | none =>
    match get_service_principal_client st s.creds_memo with
    | (c, memo1, ev) => (c, ⟨some c, memo1⟩, ev)

/-- DatabricksGroupService._get_service_principal_client
(`databricks_service.py` lines 24-38): on first access build a
ClientSecretCredential from the bootstrap identity, obtain an AAD bearer
token for the management scope (the `aadToken` parameter models what the
identity platform returns), and construct the workspace client with that
token; memoize the client.  No SecretClient is constructed and no vault
secret is fetched. -/
def ds_get_service_principal_client (st : Settings) (aadToken : String)
    (memo : Option WClient) : WClient × Option WClient × List AuthEvent :=
  match memo with
  | some c => (c, some c, [])
  | none =>
    (⟨st.DATABRICKS_WORKSPACE_URL, .bearer aadToken⟩,
     some ⟨st.DATABRICKS_WORKSPACE_URL, .bearer aadToken⟩,
     [.clientSecretCredential st.TENANT_ID st.SERVICE_PRINCIPAL_CLIENT_ID
        st.SERVICE_PRINCIPAL_SECRET,
      .getAadToken "https://management.azure.com/.default",
      .workspaceClientCtor st.DATABRICKS_WORKSPACE_URL (.bearer aadToken)])

/-- Count of vault-authentication steps (ClientSecretCredential
constructions) in a trace. -/
def authCount (l : List AuthEvent) : Nat :=
  (l.filter fun e =>
    match e with
    | .clientSecretCredential _ _ _ => true
    | _ => false).length

/-!
DatabricksGroupService.add_user_to_group (`databricks_service.py` lines
90-142), with its own oracle and event vocabulary.
-/

/-- Trace events of the single-group service: the permission probe made
with the user client, the service-principal user lookup/creation and
membership mutation, and the structured audit record. -/
inductive DSEvent where
  | userGroupsGet (group_id : String)
  | usersGet (user_email : String)
  | usersCreate (user_name : String) (entitlements : List String)
  | addMember (group_id user_name : String)
  | audit (action target_user group_name : String) (success : Bool)
  deriving DecidableEq, Repr

/-- Oracle for the provider calls DatabricksGroupService issues. -/
structure DSWorld (σ : Type) where
  userGroupsGet : String → σ → Except String Unit × σ
  usersGet : String → σ → Except String DBUser × σ
  usersCreate : String → List String → σ → Except String DBUser × σ
  addMember : String → String → σ → Except String Unit × σ

/-- DatabricksGroupService.add_user_to_group (`databricks_service.py` lines
90-142): probe the group with the user client (failure means permission
denied: audit failure, return false); then, with the service-principal
client, look up the user by email and on failure create the user with the
allow-cluster-create entitlement; add the member; any exception in the
outer block yields an audit failure record and false, success yields an
audit success record and true. -/
def ds_add_user_to_group {σ : Type} (w : DSWorld σ) (user_email group_id : String)
    (s : σ) : Bool × σ × List DSEvent :=
  match w.userGroupsGet group_id s with
  | (.error _, s1) =>
    (false, s1,
      [.userGroupsGet group_id,
       .audit "ADD_USER_TO_GROUP" user_email group_id false])
  | (.ok _, s1) =>
    match w.usersGet user_email s1 with
    | (.ok _, s2) =>
      match w.addMember group_id user_email s2 with
      | (.error _, s3) =>
        (false, s3,
          [.userGroupsGet group_id, .usersGet user_email,
           .addMember group_id user_email,
           .audit "ADD_USER_TO_GROUP" user_email group_id false])
      | (.ok _, s3) =>
        (true, s3,
          [.userGroupsGet group_id, .usersGet user_email,
           .addMember group_id user_email,
           .audit "ADD_USER_TO_GROUP" user_email group_id true])
    | (.error _, s2) =>
      match w.usersCreate user_email ["allow-cluster-create"] s2 with
      | (.error _, s3) =>
        (false, s3,
          [.userGroupsGet group_id, .usersGet user_email,
           .usersCreate user_email ["allow-cluster-create"],
           .audit "ADD_USER_TO_GROUP" user_email group_id false])
      | (.ok _, s3) =>
        match w.addMember group_id user_email s3 with
        | (.error _, s4) =>
          (false, s4,
            [.userGroupsGet group_id, .usersGet user_email,
             .usersCreate user_email ["allow-cluster-create"],
             .addMember group_id user_email,
             .audit "ADD_USER_TO_GROUP" user_email group_id false])
        | (.ok _, s4) =>
          (true, s4,
            [.userGroupsGet group_id, .usersGet user_email,
             .usersCreate user_email ["allow-cluster-create"],
             .addMember group_id user_email,
             .audit "ADD_USER_TO_GROUP" user_email group_id true])

/-!
A concrete instantiation of the provider oracle over an explicit directory
state, following the external identity-provider interface of spec section
6: reads return the stored data, add-member resolves the given user name
through the directory and appends that user to the group's member list,
remove-member drops the member with the given id.  It is used to state the
sequential idempotence claim, where the second call must observe the
membership written by the first. -/

/-- Remote directory state of the concrete provider. -/
structure ProviderState where
  users : List DBUser
  me : DBUser
  user_groups : List DBGroup
  acl : String → List AclEntry
  sp_groups : List DBGroup
  members : String → List DBUser

/-- Member list after the provider processed an add-member call. -/
def addMemberState (p : ProviderState) (gid uname : String) : ProviderState :=
  ⟨p.users, p.me, p.user_groups, p.acl, p.sp_groups,
   fun g =>
     if g == gid then
       p.members g ++
         (match findUserByEmail uname p.users with
          | some u => [u]
          | none => [])
     else p.members g⟩

/-- Member list after the provider processed a remove-member call. -/
def removeMemberState (p : ProviderState) (gid uid : String) : ProviderState :=
  ⟨p.users, p.me, p.user_groups, p.acl, p.sp_groups,
   fun g =>
     if g == gid then (p.members g).filter (fun m => !(m.id == uid))
     else p.members g⟩

/-- The concrete provider oracle: all calls succeed; only the membership
mutations change the state. -/
def dbWorld : World ProviderState :=
  ⟨fun s => (.ok s.me, s),
   fun s => (.ok s.user_groups, s),
   fun gid s => (.ok ⟨s.acl gid⟩, s),
   fun s => (.ok s.users, s),
   fun s => (.ok s.sp_groups, s),
   fun gid s => (.ok (s.members gid), s),
   fun gid uname s => (.ok (), addMemberState s gid uname),
   fun gid uid s => (.ok (), removeMemberState s gid uid)⟩

/-- Value of the permission scan over the concrete provider: the first
display-name match decides via its access-control list. -/
def aclDecision (g : String) (l : List DBGroup)
    (acl : String → List AclEntry) : Bool :=
  match l with
  | [] => false
  | x :: rest =>
    if x.display_name == g then
      (acl x.id).any fun p =>
        p.permission_level == "ADMIN" || p.permission_level == "MANAGE"
    else aclDecision g rest acl

/-!
Concrete fixtures used by the witness and counterexample theorems.
-/

/-- Fixture user. -/
def user0 : DBUser := ⟨"u1", [⟨"a@b.com"⟩]⟩

/-- Fixture group. -/
def group0 : DBGroup := ⟨"g1", "Data-Eng"⟩

/-- Stateless oracle: the caller manages group0, user0 exists and is a
member of no group, every call succeeds. -/
def constWorld : World Unit :=
  ⟨fun s => (.ok user0, s),
   fun s => (.ok [group0], s),
   fun _ s => (.ok ⟨[⟨"MANAGE"⟩]⟩, s),
   fun s => (.ok [user0], s),
   fun s => (.ok [group0], s),
   fun _ s => (.ok [], s),
   fun _ _ s => (.ok (), s),
   fun _ _ s => (.ok (), s)⟩

/-- Stateless oracle like constWorld except that user0 is already a member
of every group. -/
def memberWorld : World Unit :=
  ⟨fun s => (.ok user0, s),
   fun s => (.ok [group0], s),
   fun _ s => (.ok ⟨[⟨"MANAGE"⟩]⟩, s),
   fun s => (.ok [user0], s),
   fun s => (.ok [group0], s),
   fun _ s => (.ok [user0], s),
   fun _ _ s => (.ok (), s),
   fun _ _ s => (.ok (), s)⟩

/-- Stateless oracle whose access-control lists are empty, so the caller
manages no group. -/
def noAuthWorld : World Unit :=
  ⟨fun s => (.ok user0, s),
   fun s => (.ok [group0], s),
   fun _ s => (.ok ⟨[]⟩, s),
   fun s => (.ok [user0], s),
   fun s => (.ok [group0], s),
   fun _ s => (.ok [], s),
   fun _ _ s => (.ok (), s),
   fun _ _ s => (.ok (), s)⟩

/-- Stateless oracle whose current-user fetch raises. -/
def meFailsWorld : World Unit :=
  ⟨fun s => (.error "boom", s),
   fun s => (.ok [group0], s),
   fun _ s => (.ok ⟨[⟨"MANAGE"⟩]⟩, s),
   fun s => (.ok [user0], s),
   fun s => (.ok [group0], s),
   fun _ s => (.ok [], s),
   fun _ _ s => (.ok (), s),
   fun _ _ s => (.ok (), s)⟩

/-- Stateless oracle whose caller-side group listing raises. -/
def listFailsWorld : World Unit :=
  ⟨fun s => (.ok user0, s),
   fun s => (.error "boom", s),
   fun _ s => (.ok ⟨[⟨"MANAGE"⟩]⟩, s),
   fun s => (.ok [user0], s),
   fun s => (.ok [group0], s),
   fun _ s => (.ok [], s),
   fun _ _ s => (.ok (), s),
   fun _ _ s => (.ok (), s)⟩

/-- Stateless oracle whose access-control fetch raises. -/
def aclFailsWorld : World Unit :=
  ⟨fun s => (.ok user0, s),
   fun s => (.ok [group0], s),
   fun _ s => (.error "boom", s),
   fun s => (.ok [user0], s),
   fun s => (.ok [group0], s),
   fun _ s => (.ok [], s),
   fun _ _ s => (.ok (), s),
   fun _ _ s => (.ok (), s)⟩

/-- Oracle authorized for the Ghost group on the caller side while the
privileged group listing lacks it. -/
def ghostWorld : World Unit :=
  ⟨fun s => (.ok user0, s),
   fun s => (.ok [⟨"g2", "Ghost"⟩], s),
   fun _ s => (.ok ⟨[⟨"MANAGE"⟩]⟩, s),
   fun s => (.ok [user0], s),
   fun s => (.ok [group0], s),
   fun _ s => (.ok [], s),
   fun _ _ s => (.ok (), s),
   fun _ _ s => (.ok (), s)⟩

/-- Oracle whose privileged group listing raises. -/
def groupsListFailsWorld : World Unit :=
  ⟨fun s => (.ok user0, s),
   fun s => (.ok [group0], s),
   fun _ s => (.ok ⟨[⟨"MANAGE"⟩]⟩, s),
   fun s => (.ok [user0], s),
   fun s => (.error "boom", s),
   fun _ s => (.ok [], s),
   fun _ _ s => (.ok (), s),
   fun _ _ s => (.ok (), s)⟩

/-- Oracle whose member listing raises. -/
def membersFailWorld : World Unit :=
  ⟨fun s => (.ok user0, s),
   fun s => (.ok [group0], s),
   fun _ s => (.ok ⟨[⟨"MANAGE"⟩]⟩, s),
   fun s => (.ok [user0], s),
   fun s => (.ok [group0], s),
   fun _ s => (.error "boom", s),
   fun _ _ s => (.ok (), s),
   fun _ _ s => (.ok (), s)⟩

/-- Oracle whose add-member mutation raises. -/
def addFailsWorld : World Unit :=
  ⟨fun s => (.ok user0, s),
   fun s => (.ok [group0], s),
   fun _ s => (.ok ⟨[⟨"MANAGE"⟩]⟩, s),
   fun s => (.ok [user0], s),
   fun s => (.ok [group0], s),
   fun _ s => (.ok [], s),
   fun _ _ s => (.error "boom", s),
   fun _ _ s => (.ok (), s)⟩

/-- Oracle whose remove-member mutation raises, the user being a member. -/
def removeFailsWorld : World Unit :=
  ⟨fun s => (.ok user0, s),
   fun s => (.ok [group0], s),
   fun _ s => (.ok ⟨[⟨"MANAGE"⟩]⟩, s),
   fun s => (.ok [user0], s),
   fun s => (.ok [group0], s),
   fun _ s => (.ok [user0], s),
   fun _ _ s => (.ok (), s),
   fun _ _ s => (.error "boom", s)⟩

/-- Concrete provider directory: user0 exists, the caller manages group0,
group0 has no members yet. -/
def provider0 : ProviderState :=
  ⟨[user0], user0, [group0], fun _ => [⟨"MANAGE"⟩], [group0], fun _ => []⟩

/-- Concrete provider directory like provider0 but with user0 already a
member of group0. -/
def provider1 : ProviderState :=
  ⟨[user0], user0, [group0], fun _ => [⟨"MANAGE"⟩], [group0],
   fun g => if g == "g1" then [user0] else []⟩

/-- Single-group service oracle on which the target user does not exist:
the lookup raises, creation succeeds. -/
def dsNoUserWorld : DSWorld Unit :=
  ⟨fun _ s => (.ok (), s),
   fun _ s => (.error "user does not exist", s),
   fun uname _ s => (.ok ⟨"u9", [⟨uname⟩]⟩, s),
   fun _ _ s => (.ok (), s)⟩

/-!
Helper lemmas.
-/

/-- Recording one outcome adds exactly that group name to the collected
names, up to position. -/
theorem resultNames_recordOutcome (g : String) (o : Outcome)
    (r : OperationResult) :
    (resultNames (recordOutcome g o r)).Perm (g :: resultNames r) := by
  cases o with
  | success st =>
    simp only [resultNames, recordOutcome, List.map_cons, List.cons_append]
    exact List.Perm.refl _
  | failed reason =>
    simp only [resultNames, recordOutcome, List.map_cons, List.cons_append,
      List.append_assoc]
    exact List.perm_middle
  | unauthorized =>
    simp only [resultNames, recordOutcome, List.append_assoc]
    exact ((List.perm_middle).append_left (r.success.map SuccessEntry.group)).trans
      List.perm_middle

/-- The names collected by the add loop are exactly the requested names. -/
theorem addLoop_names {σ : Type} (w : World σ) (email : String) (user : DBUser) :
    ∀ (gs : List String) (s : σ),
      (resultNames (addLoop w email user gs s).1).Perm gs := by
  intro gs
  induction gs with
  | nil => intro s; exact List.Perm.refl _
  | cons g rest ih =>
    intro s
    rcases hp : processAddGroup w email user g s with ⟨o, s1, ev1⟩
    rcases hl : addLoop w email user rest s1 with ⟨r, s2, ev2⟩
    have hr : (resultNames r).Perm rest := by
      have h0 := ih s1
      rw [hl] at h0
      exact h0
    have hstep : (addLoop w email user (g :: rest) s).1 = recordOutcome g o r := by
      simp only [addLoop, hp, hl]
    rw [hstep]
    exact (resultNames_recordOutcome g o r).trans (hr.cons g)

/-- The names collected by the remove loop are exactly the requested names. -/
theorem removeLoop_names {σ : Type} (w : World σ) (email : String) (user : DBUser) :
    ∀ (gs : List String) (s : σ),
      (resultNames (removeLoop w email user gs s).1).Perm gs := by
  intro gs
  induction gs with
  | nil => intro s; exact List.Perm.refl _
  | cons g rest ih =>
    intro s
    rcases hp : processRemoveGroup w email user g s with ⟨o, s1, ev1⟩
    rcases hl : removeLoop w email user rest s1 with ⟨r, s2, ev2⟩
    have hr : (resultNames r).Perm rest := by
      have h0 := ih s1
      rw [hl] at h0
      exact h0
    have hstep : (removeLoop w email user (g :: rest) s).1 = recordOutcome g o r := by
      simp only [removeLoop, hp, hl]
    rw [hstep]
    exact (resultNames_recordOutcome g o r).trans (hr.cons g)

/-- C1: whenever add_user_to_groups or remove_user_from_groups returns a
results dictionary rather than raising, the group names collected over the
three lists success/failed/unauthorized are a permutation of the requested
list, and (the requested list being duplicate-free) every requested group
appears in exactly one of the three lists, exactly once. -/
theorem add_remove_partition {σ : Type} (w : World σ) (email : String)
    (gs : List String) (s : σ) (hnd : gs.Nodup) :
    (∀ r, (add_user_to_groups w email gs s).1 = .ok r →
      (resultNames r).Perm gs ∧ ∀ g ∈ gs, (resultNames r).count g = 1) ∧
    (∀ r, (remove_user_from_groups w email gs s).1 = .ok r →
      (resultNames r).Perm gs ∧ ∀ g ∈ gs, (resultNames r).count g = 1) := by
  constructor
  · intro r h
    simp only [add_user_to_groups] at h
    split at h
    · simp at h
    · split at h
      · simp at h
      · simp only [Except.ok.injEq] at h
        subst h
        refine ⟨addLoop_names _ _ _ _ _, fun g hg => ?_⟩
        rw [(addLoop_names _ _ _ _ _).count_eq g]
        exact List.count_eq_one_of_mem hnd hg
  · intro r h
    simp only [remove_user_from_groups] at h
    split at h
    · simp at h
    · split at h
      · simp at h
      · simp only [Except.ok.injEq] at h
        subst h
        refine ⟨removeLoop_names _ _ _ _ _, fun g hg => ?_⟩
        rw [(removeLoop_names _ _ _ _ _).count_eq g]
        exact List.count_eq_one_of_mem hnd hg

/-- Witness for add_remove_partition at a concrete oracle and request. -/
theorem add_remove_partition_witness :
    (resultNames ⟨[⟨"Data-Eng", "added"⟩], [], []⟩).Perm ["Data-Eng"] ∧
    ∀ g ∈ ["Data-Eng"],
      (resultNames ⟨[⟨"Data-Eng", "added"⟩], [], []⟩).count g = 1 :=
  (add_remove_partition constWorld "a@b.com" ["Data-Eng"] () (by decide)).1
    ⟨[⟨"Data-Eng", "added"⟩], [], []⟩ (by rfl)

/-- C2: if the permission check returns false for a group at the point it is
processed, then the group's processing issues no membership-mutating
provider call and the group lands in the unauthorized list.  The statement
covers the group at the head of the remaining batch; since the state s
ranges over every intermediate state, this covers every position in the
batch, for both operations. -/
theorem permission_gating {σ : Type} (w : World σ) (email : String)
    (user : DBUser) (g : String) (rest : List String) (s : σ)
    (h : (can_manage_group w g s).1 = false) :
    (processAddGroup w email user g s).1 = .unauthorized ∧
    (∀ e ∈ (processAddGroup w email user g s).2.2, e.isMutation = false) ∧
    g ∈ ((addLoop w email user (g :: rest) s).1).unauthorized ∧
    (processRemoveGroup w email user g s).1 = .unauthorized ∧
    (∀ e ∈ (processRemoveGroup w email user g s).2.2, e.isMutation = false) ∧
    g ∈ ((removeLoop w email user (g :: rest) s).1).unauthorized := by
  rcases hc : can_manage_group w g s with ⟨b, s1⟩
  rw [hc] at h
  simp at h
  subst h
  have ha : processAddGroup w email user g s = (.unauthorized, s1, []) := by
    simp only [processAddGroup, hc]
  have hrm : processRemoveGroup w email user g s = (.unauthorized, s1, []) := by
    simp only [processRemoveGroup, hc]
  refine ⟨by rw [ha], ?_, ?_, by rw [hrm], ?_, ?_⟩
  · rw [ha]; intro e he; simp at he
  · rcases hl : addLoop w email user rest s1 with ⟨r, s2, ev⟩
    have hstep : addLoop w email user (g :: rest) s =
        (recordOutcome g .unauthorized r, s2, [] ++ ev) := by
      simp only [addLoop, ha, hl]
    rw [hstep]
    simp [recordOutcome]
  · rw [hrm]; intro e he; simp at he
  · rcases hl : removeLoop w email user rest s1 with ⟨r, s2, ev⟩
    have hstep : removeLoop w email user (g :: rest) s =
        (recordOutcome g .unauthorized r, s2, [] ++ ev) := by
      simp only [removeLoop, hrm, hl]
    rw [hstep]
    simp [recordOutcome]

/-- Witness for permission_gating on the oracle with empty access-control
lists. -/
theorem permission_gating_witness :
    (processAddGroup noAuthWorld "a@b.com" user0 "Data-Eng" ()).1 =
      .unauthorized ∧
    (∀ e ∈ (processAddGroup noAuthWorld "a@b.com" user0 "Data-Eng" ()).2.2,
      e.isMutation = false) ∧
    "Data-Eng" ∈
      ((addLoop noAuthWorld "a@b.com" user0 ["Data-Eng"] ()).1).unauthorized ∧
    (processRemoveGroup noAuthWorld "a@b.com" user0 "Data-Eng" ()).1 =
      .unauthorized ∧
    (∀ e ∈ (processRemoveGroup noAuthWorld "a@b.com" user0 "Data-Eng" ()).2.2,
      e.isMutation = false) ∧
    "Data-Eng" ∈
      ((removeLoop noAuthWorld "a@b.com" user0 ["Data-Eng"] ()).1).unauthorized :=
  permission_gating noAuthWorld "a@b.com" user0 "Data-Eng" [] () (by decide)

/-- C3: when the privileged user listing succeeds but no user matches the
email, both batch operations raise the user-not-found error and process no
group: the result carries no group-level entries and the trace holds only
the users.list call, so no per-group provider call was made. -/
theorem user_not_found_fails_fast {σ : Type} (w : World σ) (email : String)
    (gs : List String) (s : σ) (users : List DBUser) (s1 : σ)
    (hl : w.spUsersList s = (.ok users, s1))
    (hn : findUserByEmail email users = none) :
    add_user_to_groups w email gs s =
      (.error ("User with email " ++ email ++ " not found"), s1,
        [.spUsersList]) ∧
    remove_user_from_groups w email gs s =
      (.error ("User with email " ++ email ++ " not found"), s1,
        [.spUsersList]) := by
  constructor
  · simp only [add_user_to_groups, hl, hn]
  · simp only [remove_user_from_groups, hl, hn]

/-- Witness for user_not_found_fails_fast: constWorld knows no user with
the queried email. -/
theorem user_not_found_fails_fast_witness :
    add_user_to_groups constWorld "nobody@x.com" ["Data-Eng"] () =
      (.error "User with email nobody@x.com not found", (),
        [.spUsersList]) ∧
    remove_user_from_groups constWorld "nobody@x.com" ["Data-Eng"] () =
      (.error "User with email nobody@x.com not found", (),
        [.spUsersList]) :=
  user_not_found_fails_fast constWorld "nobody@x.com" ["Data-Eng"] ()
    [user0] () (by rfl) (by decide)

/-- C9: the permission check is total over provider failures: a raising
current-user fetch, group listing, or access-control fetch each make it
return false rather than propagate (in this embedding its return type is
Bool, mirroring that the Python function catches every exception), and a
false answer routes the affected group to unauthorized, not failed. -/
theorem can_manage_group_total {σ : Type} (w : World σ) (g : String) (s : σ) :
    (∀ e s1, w.currentUserMe s = (.error e, s1) →
      (can_manage_group w g s).1 = false) ∧
    (∀ u s1 e s2, w.currentUserMe s = (.ok u, s1) →
      w.userGroupsList s1 = (.error e, s2) →
      (can_manage_group w g s).1 = false) ∧
    (∀ u s1 ugs s2 e s3, w.currentUserMe s = (.ok u, s1) →
      w.userGroupsList s1 = (.ok ugs, s2) →
      checkGroups w g ugs s2 = (.error e, s3) →
      (can_manage_group w g s).1 = false) ∧
    (∀ email user, (can_manage_group w g s).1 = false →
      (processAddGroup w email user g s).1 = .unauthorized ∧
      (processRemoveGroup w email user g s).1 = .unauthorized) := by
  refine ⟨?_, ?_, ?_, ?_⟩
  · intro e s1 h
    simp [can_manage_group, h]
  · intro u s1 e s2 h1 h2
    simp [can_manage_group, h1, h2]
  · intro u s1 ugs s2 e s3 h1 h2 h3
    simp [can_manage_group, h1, h2, h3]
  · intro email user h
    rcases hc : can_manage_group w g s with ⟨b, s1⟩
    rw [hc] at h
    simp at h
    subst h
    constructor
    · simp only [processAddGroup, hc]
    · simp only [processRemoveGroup, hc]

/-- Witness for can_manage_group_total on oracles failing at each of the
three steps of the check. -/
theorem can_manage_group_total_witness :
    (can_manage_group meFailsWorld "Data-Eng" ()).1 = false ∧
    (can_manage_group listFailsWorld "Data-Eng" ()).1 = false ∧
    (can_manage_group aclFailsWorld "Data-Eng" ()).1 = false ∧
    (processAddGroup aclFailsWorld "a@b.com" user0 "Data-Eng" ()).1 =
      .unauthorized :=
  ⟨(can_manage_group_total meFailsWorld "Data-Eng" ()).1 "boom" () (by rfl),
   (can_manage_group_total listFailsWorld "Data-Eng" ()).2.1 user0 () "boom"
     () (by rfl) (by rfl),
   (can_manage_group_total aclFailsWorld "Data-Eng" ()).2.2.1 user0 ()
     [group0] () "boom" () (by rfl) (by rfl) (by rfl),
   ((can_manage_group_total aclFailsWorld "Data-Eng" ()).2.2.2 "a@b.com"
     user0 (by decide)).1⟩

/-- C7 counterexample: the claim says every call with an empty group list
returns an all-empty result and does not raise, but the code resolves the
target user before looking at the group list, so an unknown user raises
the user-not-found error even when the group list is empty. -/
theorem empty_groups_counterexample :
    (add_user_to_groups constWorld "nobody@x.com" [] ()).1 =
      .error "User with email nobody@x.com not found" := by
  rfl

/-- C7 amended: a call with an empty group list returns the all-empty
result without raising provided the privileged user listing succeeds and
the target user resolves; an unresolvable user still raises. -/
theorem empty_groups_amended {σ : Type} (w : World σ) (email : String)
    (s : σ) (users : List DBUser) (s1 : σ) (u : DBUser)
    (hl : w.spUsersList s = (.ok users, s1))
    (hu : findUserByEmail email users = some u) :
    add_user_to_groups w email [] s =
      (.ok emptyResult, s1, [.spUsersList]) ∧
    remove_user_from_groups w email [] s =
      (.ok emptyResult, s1, [.spUsersList]) := by
  constructor
  · simp only [add_user_to_groups, hl, hu, addLoop]
  · simp only [remove_user_from_groups, hl, hu, removeLoop]

/-- Witness for empty_groups_amended on the concrete oracle. -/
theorem empty_groups_amended_witness :
    add_user_to_groups constWorld "a@b.com" [] () =
      (.ok emptyResult, (), [.spUsersList]) ∧
    remove_user_from_groups constWorld "a@b.com" [] () =
      (.ok emptyResult, (), [.spUsersList]) :=
  empty_groups_amended constWorld "a@b.com" () [user0] () user0 (by rfl)
    (by decide)

/-- C8 counterexample: an authorized group whose membership already holds
the target user yields the non-unauthorized outcome already_member, yet
the operation emits no audit entry, contradicting the claim that every
non-unauthorized outcome emits exactly one. -/
theorem audit_emission_counterexample :
    (add_user_to_groups memberWorld "a@b.com" ["Data-Eng"] ()).1 =
      .ok ⟨[⟨"Data-Eng", "already_member"⟩], [], []⟩ ∧
    auditEvents
      (add_user_to_groups memberWorld "a@b.com" ["Data-Eng"] ()).2.2 = [] :=
  ⟨rfl, rfl⟩

/-- C8 amended: per processed group at most one audit entry is emitted:
exactly one info entry for the added and removed outcomes, none for
unauthorized groups or the idempotent no-op successes already_member and
not_in_group; among failures, the group-not-found case emits no audit
entry while a raising group listing, member listing, add-member or
remove-member call each emit exactly one error entry. -/
theorem audit_emission_amended {σ : Type} (w : World σ) (email : String)
    (user : DBUser) (g : String) (s : σ) :
    (∀ o s1 ev, processAddGroup w email user g s = (o, s1, ev) →
      (auditEvents ev).length ≤ 1 ∧
      (o = .unauthorized → auditEvents ev = []) ∧
      (o = .success "already_member" → auditEvents ev = []) ∧
      (o = .success "added" → auditEvents ev = [.auditInfo g])) ∧
    (∀ o s1 ev, processRemoveGroup w email user g s = (o, s1, ev) →
      (auditEvents ev).length ≤ 1 ∧
      (o = .unauthorized → auditEvents ev = []) ∧
      (o = .success "not_in_group" → auditEvents ev = []) ∧
      (o = .success "removed" → auditEvents ev = [.auditInfo g])) ∧
    (∀ s1 gl s2, can_manage_group w g s = (true, s1) →
      w.spGroupsList s1 = (.ok gl, s2) →
      gl.find? (fun x => x.display_name == g) = none →
      processAddGroup w email user g s =
        (.failed "Group not found", s2, [.spGroupsList]) ∧
      processRemoveGroup w email user g s =
        (.failed "Group not found", s2, [.spGroupsList])) ∧
    (∀ s1 e s2, can_manage_group w g s = (true, s1) →
      w.spGroupsList s1 = (.error e, s2) →
      (processAddGroup w email user g s).1 = .failed e ∧
      auditEvents (processAddGroup w email user g s).2.2 = [.auditError g] ∧
      (processRemoveGroup w email user g s).1 = .failed e ∧
      auditEvents (processRemoveGroup w email user g s).2.2 =
        [.auditError g]) ∧
    (∀ s1 gl s2 grp e s3, can_manage_group w g s = (true, s1) →
      w.spGroupsList s1 = (.ok gl, s2) →
      gl.find? (fun x => x.display_name == g) = some grp →
      w.spListMembers grp.id s2 = (.error e, s3) →
      (processAddGroup w email user g s).1 = .failed e ∧
      auditEvents (processAddGroup w email user g s).2.2 = [.auditError g] ∧
      (processRemoveGroup w email user g s).1 = .failed e ∧
      auditEvents (processRemoveGroup w email user g s).2.2 =
        [.auditError g]) ∧
    (∀ s1 gl s2 grp ms s3 e s4, can_manage_group w g s = (true, s1) →
      w.spGroupsList s1 = (.ok gl, s2) →
      gl.find? (fun x => x.display_name == g) = some grp →
      w.spListMembers grp.id s2 = (.ok ms, s3) →
      ms.any (fun m => m.id == user.id) = false →
      w.spAddMember grp.id email s3 = (.error e, s4) →
      (processAddGroup w email user g s).1 = .failed e ∧
      auditEvents (processAddGroup w email user g s).2.2 =
        [.auditError g]) ∧
    (∀ s1 gl s2 grp ms s3 mem e s4, can_manage_group w g s = (true, s1) →
      w.spGroupsList s1 = (.ok gl, s2) →
      gl.find? (fun x => x.display_name == g) = some grp →
      w.spListMembers grp.id s2 = (.ok ms, s3) →
      ms.find? (fun m => m.id == user.id) = some mem →
      w.spRemoveMember grp.id user.id s3 = (.error e, s4) →
      (processRemoveGroup w email user g s).1 = .failed e ∧
      auditEvents (processRemoveGroup w email user g s).2.2 =
        [.auditError g]) := by
  refine ⟨?_, ?_, ?_, ?_, ?_, ?_, ?_⟩
  · intro o s1 ev h
    simp only [processAddGroup] at h
    (repeat' split at h) <;>
    · simp only [Prod.mk.injEq] at h
      obtain ⟨ho, hs, hev⟩ := h
      subst ho
      subst hev
      refine ⟨?_, ?_, ?_, ?_⟩ <;>
        simp [auditEvents, Event.isAudit]
  · intro o s1 ev h
    simp only [processRemoveGroup] at h
    (repeat' split at h) <;>
    · simp only [Prod.mk.injEq] at h
      obtain ⟨ho, hs, hev⟩ := h
      subst ho
      subst hev
      refine ⟨?_, ?_, ?_, ?_⟩ <;>
        simp [auditEvents, Event.isAudit]
  · intro s1 gl s2 hcm hgl hfind
    constructor
    · simp [processAddGroup, hcm, hgl, hfind]
    · simp [processRemoveGroup, hcm, hgl, hfind]
  · intro s1 e s2 hcm hgl
    have ha : processAddGroup w email user g s =
        (.failed e, s2, [.spGroupsList, .auditError g]) := by
      simp [processAddGroup, hcm, hgl]
    have hr : processRemoveGroup w email user g s =
        (.failed e, s2, [.spGroupsList, .auditError g]) := by
      simp [processRemoveGroup, hcm, hgl]
    exact ⟨by rw [ha], by simp [ha, auditEvents, Event.isAudit],
      by rw [hr], by simp [hr, auditEvents, Event.isAudit]⟩
  · intro s1 gl s2 grp e s3 hcm hgl hfind hml
    have ha : processAddGroup w email user g s =
        (.failed e, s3,
          [.spGroupsList, .listMembers grp.id, .auditError g]) := by
      simp [processAddGroup, hcm, hgl, hfind, hml]
    have hr : processRemoveGroup w email user g s =
        (.failed e, s3,
          [.spGroupsList, .listMembers grp.id, .auditError g]) := by
      simp [processRemoveGroup, hcm, hgl, hfind, hml]
    exact ⟨by rw [ha], by simp [ha, auditEvents, Event.isAudit],
      by rw [hr], by simp [hr, auditEvents, Event.isAudit]⟩
  · intro s1 gl s2 grp ms s3 e s4 hcm hgl hfind hml hmem hadd
    have ha : processAddGroup w email user g s =
        (.failed e, s4,
          [.spGroupsList, .listMembers grp.id, .addMember grp.id email,
           .auditError g]) := by
      simp [processAddGroup, hcm, hgl, hfind, hml, hmem, hadd]
    exact ⟨by rw [ha], by simp [ha, auditEvents, Event.isAudit]⟩
  · intro s1 gl s2 grp ms s3 mem e s4 hcm hgl hfind hml hmem hrem
    have hr : processRemoveGroup w email user g s =
        (.failed e, s4,
          [.spGroupsList, .listMembers grp.id,
           .removeMember grp.id user.id, .auditError g]) := by
      simp [processRemoveGroup, hcm, hgl, hfind, hml, hmem, hrem]
    exact ⟨by rw [hr], by simp [hr, auditEvents, Event.isAudit]⟩

/-- Witness for audit_emission_amended: one info entry for a successful
add, no entry for a group-not-found failure, and exactly one error entry
for each kind of raising provider call. -/
theorem audit_emission_amended_witness :
    auditEvents
      (processAddGroup constWorld "a@b.com" user0 "Data-Eng" ()).2.2 =
      [.auditInfo "Data-Eng"] ∧
    processAddGroup ghostWorld "a@b.com" user0 "Ghost" () =
      (.failed "Group not found", (), [.spGroupsList]) ∧
    auditEvents
      (processAddGroup groupsListFailsWorld "a@b.com" user0
        "Data-Eng" ()).2.2 = [.auditError "Data-Eng"] ∧
    auditEvents
      (processAddGroup membersFailWorld "a@b.com" user0
        "Data-Eng" ()).2.2 = [.auditError "Data-Eng"] ∧
    auditEvents
      (processAddGroup addFailsWorld "a@b.com" user0 "Data-Eng" ()).2.2 =
      [.auditError "Data-Eng"] ∧
    auditEvents
      (processRemoveGroup removeFailsWorld "a@b.com" user0
        "Data-Eng" ()).2.2 = [.auditError "Data-Eng"] :=
  ⟨((audit_emission_amended constWorld "a@b.com" user0 "Data-Eng" ()).1
      (.success "added") ()
      [.spGroupsList, .listMembers "g1", .addMember "g1" "a@b.com",
       .auditInfo "Data-Eng"] (by rfl)).2.2.2 rfl,
   ((audit_emission_amended ghostWorld "a@b.com" user0 "Ghost" ()).2.2.1
      () [group0] () (by decide) (by rfl) (by decide)).1,
   ((audit_emission_amended groupsListFailsWorld "a@b.com" user0
      "Data-Eng" ()).2.2.2.1 () "boom" () (by decide) (by rfl)).2.1,
   ((audit_emission_amended membersFailWorld "a@b.com" user0
      "Data-Eng" ()).2.2.2.2.1 () [group0] () group0 "boom" ()
      (by decide) (by rfl) (by decide) (by rfl)).2.1,
   ((audit_emission_amended addFailsWorld "a@b.com" user0
      "Data-Eng" ()).2.2.2.2.2.1 () [group0] () group0 [] () "boom" ()
      (by decide) (by rfl) (by decide) (by rfl) (by decide) (by rfl)).2,
   ((audit_emission_amended removeFailsWorld "a@b.com" user0
      "Data-Eng" ()).2.2.2.2.2.2 () [group0] () group0 [user0] () user0
      "boom" () (by decide) (by rfl) (by decide) (by rfl) (by decide)
      (by rfl)).2⟩

/-- C5: no execution of either privileged-client constructor ever fetches a
secret from the vault: the getSecret event occurs in no producible trace.
The handle is instead built directly from the bootstrap
client-id/client-secret pair (`auth.py`, which constructs a SecretClient
and then discards it unused) or from an AAD token
(`databricks_service.py`), never from a vault-returned secret — against
both the specified three-step procedure and the functions' own
docstrings, which announce retrieval from the vault. -/
theorem privileged_handle_no_vault_fetch (st : Settings) (memo : Option Creds)
    (aadToken : String) (cmemo : Option WClient) :
    (∀ n, AuthEvent.getSecret n ∉ (get_service_principal_client st memo).2.2) ∧
    (∀ n, AuthEvent.getSecret n ∉
      (ds_get_service_principal_client st aadToken cmemo).2.2) ∧
    (get_service_principal_client st none).1.auth =
      .oauth st.SERVICE_PRINCIPAL_CLIENT_ID st.SERVICE_PRINCIPAL_SECRET ∧
    (ds_get_service_principal_client st aadToken none).1.auth =
      .bearer aadToken := by
  refine ⟨?_, ?_, by rfl, by rfl⟩
  · intro n
    cases memo <;>
      simp [get_service_principal_client, _get_service_principal_credentials]
  · intro n
    cases cmemo <;> simp [ds_get_service_principal_client]

/-- C6: the privileged client is lazily constructed and memoized: a second
access on the same instance produces no events at all (so no
vault-authentication) and returns the identical client, the two accesses
together authenticate at most once, and a fresh instance authenticates
exactly once on first access; likewise for the memoized client of
DatabricksGroupService. -/
theorem sp_client_memoized (st : Settings) (s : GMState) (aadToken : String)
    (cm : Option WClient) :
    (service_principal_client st (service_principal_client st s).2.1).2.2 =
      [] ∧
    (service_principal_client st (service_principal_client st s).2.1).1 =
      (service_principal_client st s).1 ∧
    authCount ((service_principal_client st s).2.2 ++
      (service_principal_client st (service_principal_client st s).2.1).2.2)
      ≤ 1 ∧
    authCount (service_principal_client st ⟨none, none⟩).2.2 = 1 ∧
    (ds_get_service_principal_client st aadToken
      (ds_get_service_principal_client st aadToken cm).2.1).2.2 = [] ∧
    (ds_get_service_principal_client st aadToken
      (ds_get_service_principal_client st aadToken cm).2.1).1 =
      (ds_get_service_principal_client st aadToken cm).1 ∧
    authCount ((ds_get_service_principal_client st aadToken cm).2.2 ++
      (ds_get_service_principal_client st aadToken
        (ds_get_service_principal_client st aadToken cm).2.1).2.2) ≤ 1 := by
  obtain ⟨cm0, crm⟩ := s
  cases cm0 <;> cases crm <;> cases cm <;>
    simp [service_principal_client, get_service_principal_client,
      _get_service_principal_credentials, ds_get_service_principal_client,
      authCount]

/-- C10: when the permission probe succeeds but the service-principal user
lookup raises, DatabricksGroupService.add_user_to_group does not fail: it
silently creates a user with that email carrying the allow-cluster-create
entitlement, adds the member to the group, records an audit success and
returns true, as the trace shows. -/
theorem ds_add_user_creates_missing_user {σ : Type} (w : DSWorld σ)
    (email gid : String) (s s1 s2 s3 s4 : σ) (e : String) (nu : DBUser)
    (hperm : w.userGroupsGet gid s = (.ok (), s1))
    (hget : w.usersGet email s1 = (.error e, s2))
    (hcreate : w.usersCreate email ["allow-cluster-create"] s2 = (.ok nu, s3))
    (hadd : w.addMember gid email s3 = (.ok (), s4)) :
    ds_add_user_to_group w email gid s =
      (true, s4,
        [.userGroupsGet gid, .usersGet email,
         .usersCreate email ["allow-cluster-create"], .addMember gid email,
         .audit "ADD_USER_TO_GROUP" email gid true]) := by
  simp only [ds_add_user_to_group, hperm, hget, hcreate, hadd]

/-- Witness for ds_add_user_creates_missing_user on the oracle without the
target user. -/
theorem ds_add_user_creates_missing_user_witness :
    ds_add_user_to_group dsNoUserWorld "a@b.com" "g1" () =
      (true, (),
        [.userGroupsGet "g1", .usersGet "a@b.com",
         .usersCreate "a@b.com" ["allow-cluster-create"],
         .addMember "g1" "a@b.com",
         .audit "ADD_USER_TO_GROUP" "a@b.com" "g1" true]) :=
  ds_add_user_creates_missing_user dsNoUserWorld "a@b.com" "g1" () () () () ()
    "user does not exist" ⟨"u9", [⟨"a@b.com"⟩]⟩ (by rfl) (by rfl) (by rfl)
    (by rfl)

/-- Over the concrete provider the permission scan is pure and computes
aclDecision. -/
theorem checkGroups_db (g : String) :
    ∀ (l : List DBGroup) (p : ProviderState),
      checkGroups dbWorld g l p = (.ok (aclDecision g l p.acl), p) := by
  intro l
  induction l with
  | nil => intro p; rfl
  | cons x rest ih =>
    intro p
    by_cases hx : (x.display_name == g) = true
    · simp [checkGroups, aclDecision, hx, dbWorld]
    · simp only [Bool.not_eq_true] at hx
      simp [checkGroups, aclDecision, hx, ih]

/-- Projection of the concrete provider: current-user fetch. -/
theorem dbWorld_currentUserMe (p : ProviderState) :
    dbWorld.currentUserMe p = (.ok p.me, p) := rfl

/-- Projection of the concrete provider: caller-side group listing. -/
theorem dbWorld_userGroupsList (p : ProviderState) :
    dbWorld.userGroupsList p = (.ok p.user_groups, p) := rfl

/-- Projection of the concrete provider: privileged user listing. -/
theorem dbWorld_spUsersList (p : ProviderState) :
    dbWorld.spUsersList p = (.ok p.users, p) := rfl

/-- Projection of the concrete provider: privileged group listing. -/
theorem dbWorld_spGroupsList (p : ProviderState) :
    dbWorld.spGroupsList p = (.ok p.sp_groups, p) := rfl

/-- Projection of the concrete provider: member listing. -/
theorem dbWorld_spListMembers (gid : String) (p : ProviderState) :
    dbWorld.spListMembers gid p = (.ok (p.members gid), p) := rfl

/-- Projection of the concrete provider: add-member mutation. -/
theorem dbWorld_spAddMember (gid uname : String) (p : ProviderState) :
    dbWorld.spAddMember gid uname p = (.ok (), addMemberState p gid uname) :=
  rfl

/-- Projection of the concrete provider: remove-member mutation. -/
theorem dbWorld_spRemoveMember (gid uid : String) (p : ProviderState) :
    dbWorld.spRemoveMember gid uid p = (.ok (), removeMemberState p gid uid) :=
  rfl

/-- Over the concrete provider the whole permission check is pure and
computes aclDecision on the caller-visible groups. -/
theorem can_manage_group_db (g : String) (p : ProviderState) :
    can_manage_group dbWorld g p = (aclDecision g p.user_groups p.acl, p) := by
  simp only [can_manage_group, dbWorld_currentUserMe, dbWorld_userGroupsList,
    checkGroups_db]

/-- Single-group add over the concrete provider, authorized and not yet a
member: the member is added and the provider state gains the membership. -/
theorem add_single_db (email : String) (u : DBUser) (g : String)
    (p : ProviderState) (grp : DBGroup)
    (hu : findUserByEmail email p.users = some u)
    (hcm : aclDecision g p.user_groups p.acl = true)
    (hgrp : p.sp_groups.find? (fun x => x.display_name == g) = some grp)
    (hnm : (p.members grp.id).any (fun m => m.id == u.id) = false) :
    add_user_to_groups dbWorld email [g] p =
      (.ok ⟨[⟨g, "added"⟩], [], []⟩, addMemberState p grp.id email,
       [.spUsersList, .spGroupsList, .listMembers grp.id,
        .addMember grp.id email, .auditInfo g]) := by
  have hc : can_manage_group dbWorld g p = (true, p) := by
    rw [can_manage_group_db, hcm]
  simp [add_user_to_groups, dbWorld_spUsersList, hu, addLoop, processAddGroup,
    hc, dbWorld_spGroupsList, hgrp, dbWorld_spListMembers, hnm,
    dbWorld_spAddMember, recordOutcome, emptyResult]

/-- Single-group add over the concrete provider, authorized and already a
member: the idempotent no-op leaves the provider state unchanged. -/
theorem add_single_db_member (email : String) (u : DBUser) (g : String)
    (p : ProviderState) (grp : DBGroup)
    (hu : findUserByEmail email p.users = some u)
    (hcm : aclDecision g p.user_groups p.acl = true)
    (hgrp : p.sp_groups.find? (fun x => x.display_name == g) = some grp)
    (hm : (p.members grp.id).any (fun m => m.id == u.id) = true) :
    add_user_to_groups dbWorld email [g] p =
      (.ok ⟨[⟨g, "already_member"⟩], [], []⟩, p,
       [.spUsersList, .spGroupsList, .listMembers grp.id]) := by
  have hc : can_manage_group dbWorld g p = (true, p) := by
    rw [can_manage_group_db, hcm]
  simp [add_user_to_groups, dbWorld_spUsersList, hu, addLoop, processAddGroup,
    hc, dbWorld_spGroupsList, hgrp, dbWorld_spListMembers, hm, recordOutcome,
    emptyResult]

/-- Single-group remove over the concrete provider, authorized with the
user a member: the member is removed from the provider state. -/
theorem remove_single_db (email : String) (u : DBUser) (g : String)
    (p : ProviderState) (grp : DBGroup) (mem : DBUser)
    (hu : findUserByEmail email p.users = some u)
    (hcm : aclDecision g p.user_groups p.acl = true)
    (hgrp : p.sp_groups.find? (fun x => x.display_name == g) = some grp)
    (hm : (p.members grp.id).find? (fun m => m.id == u.id) = some mem) :
    remove_user_from_groups dbWorld email [g] p =
      (.ok ⟨[⟨g, "removed"⟩], [], []⟩, removeMemberState p grp.id u.id,
       [.spUsersList, .spGroupsList, .listMembers grp.id,
        .removeMember grp.id u.id, .auditInfo g]) := by
  have hc : can_manage_group dbWorld g p = (true, p) := by
    rw [can_manage_group_db, hcm]
  simp [remove_user_from_groups, dbWorld_spUsersList, hu, removeLoop,
    processRemoveGroup, hc, dbWorld_spGroupsList, hgrp, dbWorld_spListMembers,
    hm, dbWorld_spRemoveMember, recordOutcome, emptyResult]

/-- Single-group remove over the concrete provider, authorized with the
user not a member: the idempotent no-op leaves the provider state
unchanged. -/
theorem remove_single_db_absent (email : String) (u : DBUser) (g : String)
    (p : ProviderState) (grp : DBGroup)
    (hu : findUserByEmail email p.users = some u)
    (hcm : aclDecision g p.user_groups p.acl = true)
    (hgrp : p.sp_groups.find? (fun x => x.display_name == g) = some grp)
    (hm : (p.members grp.id).find? (fun m => m.id == u.id) = none) :
    remove_user_from_groups dbWorld email [g] p =
      (.ok ⟨[⟨g, "not_in_group"⟩], [], []⟩, p,
       [.spUsersList, .spGroupsList, .listMembers grp.id]) := by
  have hc : can_manage_group dbWorld g p = (true, p) := by
    rw [can_manage_group_db, hcm]
  simp [remove_user_from_groups, dbWorld_spUsersList, hu, removeLoop,
    processRemoveGroup, hc, dbWorld_spGroupsList, hgrp, dbWorld_spListMembers,
    hm, recordOutcome, emptyResult]

/-- C4: idempotent no-ops and sequential idempotence.  For any oracle, an
authorized group whose fetched membership already contains the target user
makes the add loop record already_member with a trace free of the
add-member call; symmetrically a membership without the user makes the
remove loop record not_in_group with a trace free of the remove-member
call.  Over the concrete provider, whose state changes only through the
operations themselves, running the same single-group add twice yields
added then already_member, and the same remove twice yields removed then
not_in_group. -/
theorem idempotent_membership_ops :
    (∀ (σ : Type) (w : World σ) (email : String) (user : DBUser) (g : String)
      (s s1 s2 s3 : σ) (gl : List DBGroup) (grp : DBGroup) (ms : List DBUser),
      can_manage_group w g s = (true, s1) →
      w.spGroupsList s1 = (.ok gl, s2) →
      gl.find? (fun x => x.display_name == g) = some grp →
      w.spListMembers grp.id s2 = (.ok ms, s3) →
      ms.any (fun m => m.id == user.id) = true →
      processAddGroup w email user g s =
        (.success "already_member", s3,
          [.spGroupsList, .listMembers grp.id])) ∧
    (∀ (σ : Type) (w : World σ) (email : String) (user : DBUser) (g : String)
      (s s1 s2 s3 : σ) (gl : List DBGroup) (grp : DBGroup) (ms : List DBUser),
      can_manage_group w g s = (true, s1) →
      w.spGroupsList s1 = (.ok gl, s2) →
      gl.find? (fun x => x.display_name == g) = some grp →
      w.spListMembers grp.id s2 = (.ok ms, s3) →
      ms.find? (fun m => m.id == user.id) = none →
      processRemoveGroup w email user g s =
        (.success "not_in_group", s3,
          [.spGroupsList, .listMembers grp.id])) ∧
    (∀ (email : String) (u : DBUser) (g : String) (p : ProviderState)
      (grp : DBGroup),
      findUserByEmail email p.users = some u →
      (can_manage_group dbWorld g p).1 = true →
      p.sp_groups.find? (fun x => x.display_name == g) = some grp →
      (p.members grp.id).any (fun m => m.id == u.id) = false →
      (add_user_to_groups dbWorld email [g] p).1 =
        .ok ⟨[⟨g, "added"⟩], [], []⟩ ∧
      (add_user_to_groups dbWorld email [g]
        ((add_user_to_groups dbWorld email [g] p).2.1)).1 =
        .ok ⟨[⟨g, "already_member"⟩], [], []⟩) ∧
    (∀ (email : String) (u : DBUser) (g : String) (p : ProviderState)
      (grp : DBGroup) (mem : DBUser),
      findUserByEmail email p.users = some u →
      (can_manage_group dbWorld g p).1 = true →
      p.sp_groups.find? (fun x => x.display_name == g) = some grp →
      (p.members grp.id).find? (fun m => m.id == u.id) = some mem →
      (remove_user_from_groups dbWorld email [g] p).1 =
        .ok ⟨[⟨g, "removed"⟩], [], []⟩ ∧
      (remove_user_from_groups dbWorld email [g]
        ((remove_user_from_groups dbWorld email [g] p).2.1)).1 =
        .ok ⟨[⟨g, "not_in_group"⟩], [], []⟩) := by
  refine ⟨?_, ?_, ?_, ?_⟩
  · intro σ w email user g s s1 s2 s3 gl grp ms hcm hgl hfind hml hmem
    simp [processAddGroup, hcm, hgl, hfind, hml, hmem]
  · intro σ w email user g s s1 s2 s3 gl grp ms hcm hgl hfind hml hmem
    simp [processRemoveGroup, hcm, hgl, hfind, hml, hmem]
  · intro email u g p grp hu hcm hgrp hnm
    have hacl : aclDecision g p.user_groups p.acl = true := by
      rw [can_manage_group_db] at hcm
      exact hcm
    have h1 := add_single_db email u g p grp hu hacl hgrp hnm
    have hstate : (add_user_to_groups dbWorld email [g] p).2.1 =
        addMemberState p grp.id email := by rw [h1]
    have hu1 : findUserByEmail email (addMemberState p grp.id email).users =
        some u := hu
    have hacl1 : aclDecision g (addMemberState p grp.id email).user_groups
        (addMemberState p grp.id email).acl = true := hacl
    have hgrp1 : (addMemberState p grp.id email).sp_groups.find?
        (fun x => x.display_name == g) = some grp := hgrp
    have hm1 : ((addMemberState p grp.id email).members grp.id).any
        (fun m => m.id == u.id) = true := by
      simp [addMemberState, hu, hnm]
    have h2 := add_single_db_member email u g (addMemberState p grp.id email)
      grp hu1 hacl1 hgrp1 hm1
    constructor
    · rw [h1]
    · rw [hstate, h2]
  · intro email u g p grp mem hu hcm hgrp hm
    have hacl : aclDecision g p.user_groups p.acl = true := by
      rw [can_manage_group_db] at hcm
      exact hcm
    have h1 := remove_single_db email u g p grp mem hu hacl hgrp hm
    have hstate : (remove_user_from_groups dbWorld email [g] p).2.1 =
        removeMemberState p grp.id u.id := by rw [h1]
    have hu1 : findUserByEmail email (removeMemberState p grp.id u.id).users =
        some u := hu
    have hacl1 : aclDecision g (removeMemberState p grp.id u.id).user_groups
        (removeMemberState p grp.id u.id).acl = true := hacl
    have hgrp1 : (removeMemberState p grp.id u.id).sp_groups.find?
        (fun x => x.display_name == g) = some grp := hgrp
    have hm1 : ((removeMemberState p grp.id u.id).members grp.id).find?
        (fun m => m.id == u.id) = none := by
      simp [removeMemberState]
    have h2 := remove_single_db_absent email u g
      (removeMemberState p grp.id u.id) grp hu1 hacl1 hgrp1 hm1
    constructor
    · rw [h1]
    · rw [hstate, h2]

/-- Witness for idempotent_membership_ops: all four parts at concrete
oracles and provider directories. -/
theorem idempotent_membership_ops_witness :
    processAddGroup memberWorld "a@b.com" user0 "Data-Eng" () =
      (.success "already_member", (), [.spGroupsList, .listMembers "g1"]) ∧
    processRemoveGroup constWorld "a@b.com" user0 "Data-Eng" () =
      (.success "not_in_group", (), [.spGroupsList, .listMembers "g1"]) ∧
    ((add_user_to_groups dbWorld "a@b.com" ["Data-Eng"] provider0).1 =
       .ok ⟨[⟨"Data-Eng", "added"⟩], [], []⟩ ∧
     (add_user_to_groups dbWorld "a@b.com" ["Data-Eng"]
        ((add_user_to_groups dbWorld "a@b.com" ["Data-Eng"] provider0).2.1)).1 =
       .ok ⟨[⟨"Data-Eng", "already_member"⟩], [], []⟩) ∧
    ((remove_user_from_groups dbWorld "a@b.com" ["Data-Eng"] provider1).1 =
       .ok ⟨[⟨"Data-Eng", "removed"⟩], [], []⟩ ∧
     (remove_user_from_groups dbWorld "a@b.com" ["Data-Eng"]
        ((remove_user_from_groups dbWorld "a@b.com" ["Data-Eng"]
          provider1).2.1)).1 =
       .ok ⟨[⟨"Data-Eng", "not_in_group"⟩], [], []⟩) :=
  ⟨idempotent_membership_ops.1 Unit memberWorld "a@b.com" user0 "Data-Eng"
     () () () () [group0] group0 [user0] (by rfl) (by rfl) (by decide)
     (by rfl) (by decide),
   idempotent_membership_ops.2.1 Unit constWorld "a@b.com" user0 "Data-Eng"
     () () () () [group0] group0 [] (by rfl) (by rfl) (by decide) (by rfl)
     (by decide),
   idempotent_membership_ops.2.2.1 "a@b.com" user0 "Data-Eng" provider0
     group0 (by decide) (by decide) (by decide) (by decide),
   idempotent_membership_ops.2.2.2 "a@b.com" user0 "Data-Eng" provider1
     group0 user0 (by decide) (by decide) (by decide) (by decide)⟩

end AppUserManager
